import Mathlib

/-!
Verification of the voice-detector request pipeline (`voice_detector/app.py`,
`voice_detector/database.py`).  Python floats are embedded as rationals,
exceptions as `Except`/`Option`, and the external collaborators (base64
decoding, librosa decoding, the persisted scaler/scorer, the database
session) as explicit parameters of the pipeline function.
-/

namespace VoiceDetector

/-- The feature dictionary produced by `extract_features` (utils/audio.py),
restricted to the keys the classifiers read.  Fields are `Option` because the
classifiers read them with `dict.get(key, default)`. -/
structure Feats where
  duration : Option ℚ
  f0_var : Option ℚ
  zcr_mean : Option ℚ
  spec_centroid_var : Option ℚ
  flatness_mean : Option ℚ
deriving Repr, DecidableEq

/-- Supported language codes (app.py lines 47-53, dict keys). -/
def SUPPORTED : List String := [("en"), ("ta"), ("hi"), ("ml"), ("te")]

/-- app.py line 55. -/
def MAX_AUDIO_FILE_SIZE : ℕ := 2 * 1024 * 1024

/-- app.py line 56. -/
def MAX_AUDIO_DURATION : ℚ := 30

/-- app.py line 57. -/
def REQUEST_TIMEOUT : ℚ := 10

/-- Round a rational to the nearest integer, ties to even: the rounding of
the Python builtin `round`. -/
def roundHalfEven (q : ℚ) : ℤ :=
  if q - ⌊q⌋ < 1/2 then ⌊q⌋
  else if 1/2 < q - ⌊q⌋ then ⌊q⌋ + 1
  else if ⌊q⌋ % 2 = 0 then ⌊q⌋ else ⌊q⌋ + 1

/-- Python `round(confidence, 3)` as performed by `detect_voice` (app.py line 351). -/
def round3 (q : ℚ) : ℚ := (roundHalfEven (1000 * q) : ℚ) / 1000

/-- Function `_classify_heuristic` (app.py lines 165-182).  The unused `dur` binding of
the source is kept as `_dur`. -/
def classifyHeuristic (feats : Feats) : String × ℚ :=
  let _dur := min (max (feats.duration.getD 1.0) 0.1) 10.0
  let f0_var := feats.f0_var.getD 1000.0
  let zcr := feats.zcr_mean.getD 0.1
  let spec_cent_var := feats.spec_centroid_var.getD 10000.0
  let flatness := feats.flatness_mean.getD 0.5
  let s_f0 := 1.0 - min f0_var 500.0 / 500.0
  let s_zcr := 1.0 - min (zcr / 0.5) 1.0
  let s_spec := 1.0 - min (spec_cent_var / 5000.0) 1.0
  let s_flat := 1.0 - min flatness 1.0
  let score := 0.45 * s_f0 + 0.25 * s_zcr + 0.2 * s_spec + 0.1 * s_flat
  let confidence := max 0.0 (min 1.0 score)
  let label := if confidence ≥ 0.5 then ("AI_GENERATED") else ("HUMAN")
  (label, confidence)

/-- The feature list `_classify_ml` builds from the feature dictionary
(app.py lines 143-149). -/
def featureList (feats : Feats) : List ℚ :=
  [feats.duration.getD 1.0, feats.f0_var.getD 500.0, feats.zcr_mean.getD 0.1,
   feats.spec_centroid_var.getD 5000.0, feats.flatness_mean.getD 0.5]

/-- Function `_classify_ml` (app.py lines 140-162).  The persisted scaler and scorer
are external artifacts; `score` abstracts the composite
`model.predict_proba(scaler.transform([feature_list]))[0][1]` of the
try-block, returning `.error ()` when any step raises.  On failure the
heuristic result for the same features is returned. -/
def classifyMl (score : List ℚ → Except Unit ℚ) (feats : Feats) : String × ℚ :=
  match score (featureList feats) with
  | .ok confidence =>
      (if confidence ≥ 0.5 then ("AI_GENERATED") else ("HUMAN"), confidence)
  | .error _ => classifyHeuristic feats

/-- Helper for `pySplit`: scan the characters, `acc` holding the current word
reversed. -/
def pySplitAux : List Char → List Char → List String
  | [], acc => if acc.isEmpty then [] else [String.mk acc.reverse]
  | c :: cs, acc =>
    if c.isWhitespace then
      if acc.isEmpty then pySplitAux cs []
      else String.mk acc.reverse :: pySplitAux cs []
    else pySplitAux cs (c :: acc)

/-- Python `str.split()` with no argument: split on runs of whitespace,
discarding empty pieces. -/
def pySplit (s : String) : List String :=
  pySplitAux s.toList []

/-- Python `str.lower()`, characterwise. -/
def pyLower (s : String) : String :=
  String.mk (s.toList.map Char.toLower)

/-- The bearer-scheme parse inside `_check_api_key` (app.py lines 107-109):
the token of a nonempty authorization header that splits into exactly two
parts whose first lowercases to "bearer", else `none`. -/
def bearerToken (header_value : Option String) : Option String :=
  match header_value with
  | some hv =>
    if hv = "" then none
    else
      let parts := pySplit hv
      if parts.length = 2 ∧ pyLower (parts.headD ("")) = ("bearer") then
        some (parts.getD 1 (""))
      else none
  | none => none

/-- Function `_check_api_key` (app.py lines 105-113).  `hmac.compare_digest` is
modelled as string equality; a well-formed bearer header returns from inside
the first branch, so `x_api_key` is only consulted when no well-formed
bearer header is present. -/
def checkApiKey (header_value x_api_key : Option String) (apiKey : String) : Bool :=
  match bearerToken header_value with
  | some tok => decide (tok = apiKey)
  | none =>
    match x_api_key with
    | some xk => if xk ≠ "" then decide (xk = apiKey) else false
    | none => false

/-- Function `_rate_limit_check` (app.py lines 116-137) for a single client identity:
keep the timestamps `ts` with `(now - ts).total_seconds() < 60`, reject
(recording nothing) when 100 or more remain, otherwise record `now` and
accept.  Timestamps are seconds, as rationals. -/
def rateLimitCheck (window : List ℚ) (now : ℚ) : Bool × List ℚ :=
  let kept := window.filter (fun ts => decide (now - ts < 60))
  if kept.length ≥ 100 then (false, kept)
  else (true, kept ++ [now])

/-- Exceptions the extraction block can raise, as discriminated by the three
except clauses at app.py lines 330-341. -/
inductive PyError where
  | timeoutError
  | valueError (msg : String)
  | otherError
deriving Repr, DecidableEq

/-- Outcome of the awaited decode for one request: audio decoded by
`librosa.load` to some duration with its extracted features, a decoding or
extraction exception, or the wall-clock deadline expiring, in which case
`asyncio.wait_for` cancels the task and raises `asyncio.TimeoutError`. -/
inductive DecodeOutcome where
  | decoded (duration : ℚ) (feats : Feats)
  | decodeFail
  | timedOut
deriving Repr, DecidableEq

/-- Function `load_and_extract` under `asyncio.wait_for` (app.py lines 310-322):
decode, enforce the duration bounds (violations raise `ValueError`), then
extract features. -/
def loadAndExtract (d : DecodeOutcome) : Except PyError Feats :=
  match d with
  | .timedOut => .error .timeoutError
  | .decodeFail => .error .otherError
  | .decoded duration feats =>
    if duration > MAX_AUDIO_DURATION then
      .error (.valueError ("Audio duration exceeds 30.0 seconds"))
    else if duration < 0.5 then
      .error (.valueError ("Audio duration is too short (< 0.5 seconds)"))
    else .ok feats

/-- The temp-file block (app.py lines 304-328): the audio bytes are staged to
a temporary file, the decode and extraction run under the deadline, and the
finally clause removes the staged file before any result or exception
propagates.  The Bool records whether `os.remove(temp_file)` ran. -/
def featureExtractionStage (d : DecodeOutcome) : Except PyError Feats × Bool :=
  let result := loadAndExtract d
  (result, true)

/-- The except clauses at app.py lines 330-341: status code and detail each
extraction failure is turned into. -/
def extractionErrorResponse (e : PyError) : ℕ × String :=
  match e with
  | .timeoutError => (400, "Audio processing timeout")
  | .valueError m => (400, "Invalid audio: " ++ m)
  | .otherError => (400, "Could not decode audio or extract features")

/-- The counters of the module-level `metrics` dict (app.py lines 82-91) that
the claims track. -/
structure Metrics where
  total_requests : ℕ
  successful_detections : ℕ
  failed_requests : ℕ
  auth_failures : ℕ
deriving Repr, DecidableEq

/-- Pointwise sum of counters: accumulating the delta of one invocation onto
the global counters. -/
def Metrics.add (a b : Metrics) : Metrics :=
  ⟨a.total_requests + b.total_requests,
   a.successful_detections + b.successful_detections,
   a.failed_requests + b.failed_requests,
   a.auth_failures + b.auth_failures⟩

/-- A row of the `detections` table (database.py lines 21-30) as filled in by
`detect_voice` (app.py lines 367-373). -/
structure DetectionRecord where
  id : String
  language : String
  result : String
  confidence : ℚ
  model_version : String
deriving Repr, DecidableEq

/-- The request body model `AudioRequest` (app.py lines 94-96). -/
structure AudioRequest where
  audio_base64 : String
  language : String
deriving Repr, DecidableEq

/-- HTTP outcome of the handler: the 200 JSON body with result and
confidence, or an `HTTPException` with a status code and detail. -/
inductive HttpResult where
  | ok (result : String) (confidence : ℚ)
  | error (status : ℕ) (detail : String)
deriving Repr, DecidableEq

/-- Behaviour of the external collaborators of `detect_voice` for one
request: the startup model state (`MODEL_AVAILABLE`, `metadata["version"]`),
the scorer behind `_classify_ml`, `base64.b64decode` (number of decoded
bytes, or `none` when it raises), the decode/deadline outcome for the staged
audio, whether `db.add`/`db.commit` succeeds, and the request id minted by
`uuid.uuid4()`. -/
structure Env where
  modelAvailable : Bool
  metadataVersion : String
  mlScore : List ℚ → Except Unit ℚ
  b64decode : String → Option ℕ
  decode : DecodeOutcome
  dbSaveOk : Bool
  requestId : String

/-- Everything one invocation of the handler produces: the HTTP response,
the delta added to the metrics counters, the updated rate-limit window of
the calling client, the row committed to the database (if any), and whether
the staged temp file was removed (`none` when the request never reached the
staging step). -/
structure DetectOutcome where
  response : HttpResult
  metrics : Metrics
  window : List ℚ
  saved : Option DetectionRecord
  tempRemoved : Option Bool

/-- The `/detect` handler `detect_voice` (app.py lines 234-391) for one
request from one client: `window` is that client identity's rate-limit
window and `now` the current time in seconds. -/
def detectVoice (env : Env) (data : AudioRequest) (authHeader xApiKey : Option String)
    (apiKey : String) (window : List ℚ) (now : ℚ) : DetectOutcome :=
  let rl := rateLimitCheck window now
  if rl.1 = false then
    ⟨.error 429 ("Too many requests"), ⟨1, 0, 1, 0⟩, rl.2, none, none⟩
  else if checkApiKey authHeader xApiKey apiKey = false then
    ⟨.error 401 ("Unauthorized"), ⟨1, 0, 0, 1⟩, rl.2, none, none⟩
  else
    let lang := pyLower data.language
    if lang ∉ SUPPORTED then
      ⟨.error 400 ("Unsupported language: " ++ lang), ⟨1, 0, 1, 0⟩, rl.2, none, none⟩
    else
      match env.b64decode data.audio_base64 with
      | none =>
        ⟨.error 400 ("audio_base64 must be valid base64"), ⟨1, 0, 1, 0⟩, rl.2, none, none⟩
      | some nbytes =>
        if nbytes > MAX_AUDIO_FILE_SIZE then
          ⟨.error 400 ("Audio file exceeds 2097152 bytes"), ⟨1, 0, 1, 0⟩, rl.2, none, none⟩
        else if nbytes < 100 then
          ⟨.error 400 ("Audio file is too small"), ⟨1, 0, 1, 0⟩, rl.2, none, none⟩
        else
          let ext := featureExtractionStage env.decode
          match ext.1 with
          | .error e =>
            let resp := extractionErrorResponse e
            ⟨.error resp.1 resp.2, ⟨1, 0, 1, 0⟩, rl.2, none, some ext.2⟩
          | .ok feats =>
            let rcv : String × ℚ × String :=
              if env.modelAvailable then
                let rc := classifyMl env.mlScore feats
                (rc.1, rc.2, env.metadataVersion)
              else
                let rc := classifyHeuristic feats
                (rc.1, rc.2, ("heuristic"))
            let confidence := round3 rcv.2.1
            let record : DetectionRecord :=
              ⟨env.requestId, lang, rcv.1, confidence, rcv.2.2⟩
            let saved := if env.dbSaveOk then some record else none
            ⟨.ok rcv.1 confidence, ⟨1, 1, 0, 0⟩, rl.2, saved, some ext.2⟩

/-! Helper lemmas. -/

theorem roundHalfEven_le_add_half (q : ℚ) : (roundHalfEven q : ℚ) ≤ q + 1/2 := by
  have hfl : (⌊q⌋ : ℚ) ≤ q := Int.floor_le q
  have hfu : q < ⌊q⌋ + 1 := Int.lt_floor_add_one q
  unfold roundHalfEven
  split_ifs <;> push_cast <;> linarith

theorem sub_half_le_roundHalfEven (q : ℚ) : q - 1/2 ≤ (roundHalfEven q : ℚ) := by
  have hfl : (⌊q⌋ : ℚ) ≤ q := Int.floor_le q
  have hfu : q < ⌊q⌋ + 1 := Int.lt_floor_add_one q
  unfold roundHalfEven
  split_ifs <;> push_cast <;> linarith

theorem round3_nonneg (c : ℚ) (h : 0 ≤ c) : 0 ≤ round3 c := by
  have h2 := sub_half_le_roundHalfEven (1000 * c)
  have h3 : (-1 : ℚ) < (roundHalfEven (1000 * c) : ℚ) := by linarith
  have h4 : (-1 : ℤ) < roundHalfEven (1000 * c) := by exact_mod_cast h3
  have h5 : (0 : ℤ) ≤ roundHalfEven (1000 * c) := by omega
  unfold round3
  apply div_nonneg _ (by norm_num)
  exact_mod_cast h5

theorem round3_le_one (c : ℚ) (h : c ≤ 1) : round3 c ≤ 1 := by
  have h2 := roundHalfEven_le_add_half (1000 * c)
  have h3 : (roundHalfEven (1000 * c) : ℚ) < 1001 := by linarith
  have h4 : roundHalfEven (1000 * c) < (1001 : ℤ) := by exact_mod_cast h3
  have h5 : roundHalfEven (1000 * c) ≤ (1000 : ℤ) := by omega
  unfold round3
  rw [div_le_one (by norm_num)]
  exact_mod_cast h5

/-- Characterization of the success path of `detectVoice`: when the rate
limiter admits, the key checks out, the language is supported, the decoded
payload is within the size bounds, and the audio decodes to an in-bounds
duration, the handler classifies, rounds, responds 200, and stages exactly
one record. -/
theorem detectVoice_success (env : Env) (data : AudioRequest)
    (auth xkey : Option String) (apiKey : String) (window : List ℚ) (now : ℚ)
    (n : ℕ) (dur : ℚ) (feats : Feats)
    (hrl : (rateLimitCheck window now).1 = true)
    (hauth : checkApiKey auth xkey apiKey = true)
    (hlang : pyLower data.language ∈ SUPPORTED)
    (hb64 : env.b64decode data.audio_base64 = some n)
    (hmax : ¬ n > MAX_AUDIO_FILE_SIZE)
    (hmin : ¬ n < 100)
    (hdec : env.decode = .decoded dur feats)
    (hd1 : ¬ dur > MAX_AUDIO_DURATION)
    (hd2 : ¬ dur < 0.5) :
    detectVoice env data auth xkey apiKey window now =
      (let rcv : String × ℚ × String :=
        if env.modelAvailable then
          ((classifyMl env.mlScore feats).1, (classifyMl env.mlScore feats).2,
            env.metadataVersion)
        else
          ((classifyHeuristic feats).1, (classifyHeuristic feats).2, ("heuristic"))
      ⟨.ok rcv.1 (round3 rcv.2.1), ⟨1, 1, 0, 0⟩, (rateLimitCheck window now).2,
        (if env.dbSaveOk then
          some ⟨env.requestId, pyLower data.language, rcv.1, round3 rcv.2.1, rcv.2.2⟩
        else none),
        some true⟩) := by
  simp only [detectVoice, featureExtractionStage, loadAndExtract, hrl, hauth, hlang, hb64,
    hdec, hmax, hmin, hd1, hd2, Bool.true_eq_false, if_false, ite_false, not_true_eq_false,
    not_false_eq_true, ite_true, if_true, gt_iff_lt]

/-- Characterization of the extraction-failure path of `detectVoice`: an
admitted, authenticated, validated request whose extraction raises gets the
mapped 400 response, a failed-request count of one, no stored record, and
the staged temp file removed. -/
theorem detectVoice_extractError (env : Env) (data : AudioRequest)
    (auth xkey : Option String) (apiKey : String) (window : List ℚ) (now : ℚ)
    (n : ℕ) (e : PyError)
    (hrl : (rateLimitCheck window now).1 = true)
    (hauth : checkApiKey auth xkey apiKey = true)
    (hlang : pyLower data.language ∈ SUPPORTED)
    (hb64 : env.b64decode data.audio_base64 = some n)
    (hmax : ¬ n > MAX_AUDIO_FILE_SIZE)
    (hmin : ¬ n < 100)
    (herr : loadAndExtract env.decode = .error e) :
    detectVoice env data auth xkey apiKey window now =
      ⟨.error (extractionErrorResponse e).1 (extractionErrorResponse e).2,
        ⟨1, 0, 1, 0⟩, (rateLimitCheck window now).2, none, some true⟩ := by
  simp only [detectVoice, featureExtractionStage, hrl, hauth, hlang, hb64, hmax, hmin, herr,
    Bool.true_eq_false, if_false, ite_false, not_true_eq_false, not_false_eq_true, ite_true,
    if_true]

theorem rateLimitCheck_nil (now : ℚ) : rateLimitCheck [] now = (true, [now]) := by
  simp [rateLimitCheck]

/-- Feature values used in the spec determinism example:
f0v=10, z=0.01, sv=100, fl=0.1. -/
def sampleFeats : Feats := ⟨some 1, some 10, some (1/100), some 100, some (1/10)⟩

/-- A fully valid environment: heuristic-only model, decodable audio of one
second yielding `sampleFeats`, working persistence. -/
def sampleEnv : Env :=
  ⟨false, ("1.0"), fun _ => .error (), fun _ => some 1000,
    .decoded 1 sampleFeats, true, ("req-0")⟩

/-- A request with a supported language. -/
def sampleReq : AudioRequest := ⟨("QUJDRA=="), ("en")⟩

set_option maxHeartbeats 1000000 in
theorem classifyHeuristic_sampleFeats :
    classifyHeuristic sampleFeats = (("AI_GENERATED"), 972/1000) := by
  norm_num [sampleFeats, classifyHeuristic, min_def, max_def]

theorem round3_972 : round3 (972/1000) = 972/1000 := by
  norm_num [round3, roundHalfEven]

/-! Claim theorems. -/

/-- C1: for every feature vector, the heuristic strategy returns
confidence clamp(0.45 s_f0 + 0.25 s_zcr + 0.20 s_spec + 0.10 s_flat, 0, 1),
which the handler rounds to three decimals before returning; on the inputs
f0v=10, z=0.01, sv=100, fl=0.1 this yields confidence 0.972 and label
AI_GENERATED. -/
theorem claim_C1 :
    (∀ (f0v z sv fl : ℚ) (d : Option ℚ),
      (classifyHeuristic ⟨d, some f0v, some z, some sv, some fl⟩).2
        = max 0 (min 1 (45/100 * (1 - min f0v 500 / 500)
            + 25/100 * (1 - min (z / (1/2)) 1)
            + 20/100 * (1 - min (sv / 5000) 1)
            + 10/100 * (1 - min fl 1))))
    ∧ (∀ (env : Env) (data : AudioRequest) (auth xkey : Option String)
        (apiKey : String) (now : ℚ) (n : ℕ) (dur : ℚ) (feats : Feats),
        env.modelAvailable = false →
        checkApiKey auth xkey apiKey = true →
        pyLower data.language ∈ SUPPORTED →
        env.b64decode data.audio_base64 = some n →
        ¬ n > MAX_AUDIO_FILE_SIZE → ¬ n < 100 →
        env.decode = .decoded dur feats →
        ¬ dur > MAX_AUDIO_DURATION → ¬ dur < 0.5 →
        (detectVoice env data auth xkey apiKey [] now).response
          = .ok (classifyHeuristic feats).1 (round3 (classifyHeuristic feats).2))
    ∧ round3 (classifyHeuristic sampleFeats).2 = 972/1000
    ∧ (classifyHeuristic sampleFeats).1 = ("AI_GENERATED") := by
  refine ⟨?_, ?_, ?_, ?_⟩
  · intro f0v z sv fl d
    simp only [classifyHeuristic, Option.getD_some]
    norm_num
  · intro env data auth xkey apiKey now n dur feats hma hauth hlang hb64 hmax hmin hdec hd1 hd2
    rw [detectVoice_success env data auth xkey apiKey [] now n dur feats
      (by rw [rateLimitCheck_nil]) hauth hlang hb64 hmax hmin hdec hd1 hd2]
    simp [hma]
  · rw [classifyHeuristic_sampleFeats, round3_972]
  · rw [classifyHeuristic_sampleFeats]

/-- C1 witness: the concrete pipeline run on the example inputs returns 200
with label AI_GENERATED and confidence 0.972. -/
theorem claim_C1_witness :
    sampleEnv.modelAvailable = false
    ∧ checkApiKey none (some ("k")) ("k") = true
    ∧ (detectVoice sampleEnv sampleReq none (some ("k")) ("k") [] 0).response
        = .ok ("AI_GENERATED") (972/1000) := by
  refine ⟨rfl, by decide, ?_⟩
  rw [claim_C1.2.1 sampleEnv sampleReq none (some ("k")) ("k") 0 1000 1 sampleFeats
    rfl (by decide) (by decide) rfl (by norm_num [MAX_AUDIO_FILE_SIZE]) (by norm_num)
    rfl (by norm_num [MAX_AUDIO_DURATION]) (by norm_num)]
  rw [claim_C1.2.2.2, claim_C1.2.2.1]

/-- C3: on each call the rate limiter keeps exactly the timestamps less than
60 seconds old, rejects while recording nothing when 100 or more remain, and
otherwise records now and accepts; a rejected request is answered 429 "Too
many requests" by the handler, so a 101st request inside the window gets
429, while a request 61 or more seconds after a full window passes the
limiter and is never answered 429. -/
theorem claim_C3 :
    (∀ (window : List ℚ) (now : ℚ),
      (∀ ts ∈ window.filter (fun ts => decide (now - ts < 60)), now - ts < 60)
      ∧ (∀ ts ∈ window, now - ts < 60 →
          ts ∈ window.filter (fun ts => decide (now - ts < 60)))
      ∧ ((window.filter (fun ts => decide (now - ts < 60))).length ≥ 100 →
          rateLimitCheck window now
            = (false, window.filter (fun ts => decide (now - ts < 60))))
      ∧ ((window.filter (fun ts => decide (now - ts < 60))).length < 100 →
          rateLimitCheck window now
            = (true, window.filter (fun ts => decide (now - ts < 60)) ++ [now])))
    ∧ (∀ (window : List ℚ) (now : ℚ), window.length = 100 →
        (∀ ts ∈ window, now - ts < 60) → (rateLimitCheck window now).1 = false)
    ∧ (∀ (window : List ℚ) (now : ℚ), (∀ ts ∈ window, 61 ≤ now - ts) →
        (rateLimitCheck window now).1 = true)
    ∧ (∀ (env : Env) (data : AudioRequest) (auth xkey : Option String)
        (apiKey : String) (window : List ℚ) (now : ℚ),
        (rateLimitCheck window now).1 = false →
        (detectVoice env data auth xkey apiKey window now).response
          = .error 429 ("Too many requests"))
    ∧ (∀ (env : Env) (data : AudioRequest) (auth xkey : Option String)
        (apiKey : String) (window : List ℚ) (now : ℚ),
        window.length = 100 → (∀ ts ∈ window, now - ts < 60) →
        (detectVoice env data auth xkey apiKey window now).response
          = .error 429 ("Too many requests"))
    ∧ (∀ (env : Env) (data : AudioRequest) (auth xkey : Option String)
        (apiKey : String) (window : List ℚ) (now : ℚ) (detail : String),
        (∀ ts ∈ window, 61 ≤ now - ts) →
        (detectVoice env data auth xkey apiKey window now).response
          ≠ .error 429 detail) := by
  have hrej : ∀ (window : List ℚ) (now : ℚ), window.length = 100 →
      (∀ ts ∈ window, now - ts < 60) → (rateLimitCheck window now).1 = false := by
    intro window now hlen hall
    have hfl : window.filter (fun ts => decide (now - ts < 60)) = window :=
      List.filter_eq_self.mpr fun ts hts => by simpa using hall ts hts
    simp only [rateLimitCheck, hfl, hlen, ge_iff_le, le_refl, if_pos]
  have hacc : ∀ (window : List ℚ) (now : ℚ), (∀ ts ∈ window, 61 ≤ now - ts) →
      (rateLimitCheck window now).1 = true := by
    intro window now hall
    have hfl : window.filter (fun ts => decide (now - ts < 60)) = [] :=
      List.filter_eq_nil_iff.mpr fun ts hts => by
        simpa using not_lt.mpr (by linarith [hall ts hts])
    simp [rateLimitCheck, hfl]
  have h429 : ∀ (env : Env) (data : AudioRequest) (auth xkey : Option String)
      (apiKey : String) (window : List ℚ) (now : ℚ),
      (rateLimitCheck window now).1 = false →
      (detectVoice env data auth xkey apiKey window now).response
        = .error 429 ("Too many requests") := by
    intro env data auth xkey apiKey window now h
    simp [detectVoice, h]
  have hno429 : ∀ (env : Env) (data : AudioRequest) (auth xkey : Option String)
      (apiKey : String) (window : List ℚ) (now : ℚ) (detail : String),
      (rateLimitCheck window now).1 = true →
      (detectVoice env data auth xkey apiKey window now).response
        ≠ .error 429 detail := by
    intro env data auth xkey apiKey window now detail hrl
    have h1 : ¬ (rateLimitCheck window now).1 = false := by simp [hrl]
    by_cases h2 : checkApiKey auth xkey apiKey = false
    · simp [detectVoice, h1, h2]
    · by_cases h3 : pyLower data.language ∉ SUPPORTED
      · simp [detectVoice, h1, h2, h3]
      · cases hb : env.b64decode data.audio_base64 with
        | none => simp [detectVoice, h1, h2, h3, hb]
        | some nbytes =>
          by_cases h4 : nbytes > MAX_AUDIO_FILE_SIZE
          · simp [detectVoice, h1, h2, h3, hb, h4]
          · by_cases h5 : nbytes < 100
            · simp [detectVoice, h1, h2, h3, hb, h4, h5]
            · cases hx : (featureExtractionStage env.decode).1 with
              | error e =>
                cases e <;>
                  simp [detectVoice, h1, h2, h3, hb, h4, h5, hx, extractionErrorResponse]
              | ok feats => simp [detectVoice, h1, h2, h3, hb, h4, h5, hx]
  refine ⟨fun window now => ⟨?_, ?_, ?_, ?_⟩, hrej, hacc, h429,
    fun env data auth xkey apiKey window now hlen hall =>
      h429 env data auth xkey apiKey window now (hrej window now hlen hall),
    fun env data auth xkey apiKey window now detail hall =>
      hno429 env data auth xkey apiKey window now detail (hacc window now hall)⟩
  · intro ts hts
    simpa using (List.mem_filter.mp hts).2
  · intro ts hts hlt
    exact List.mem_filter.mpr ⟨hts, by simpa using hlt⟩
  · intro h
    simp only [rateLimitCheck, if_pos h]
  · intro h
    have hno : ¬ (window.filter (fun ts => decide (now - ts < 60))).length ≥ 100 := by
      omega
    simp only [rateLimitCheck, if_neg hno]

/-- C3 witness: a client with 100 requests all 59 seconds old is rejected at
the 101st with 429, and 61 seconds after the full window the request passes
the limiter and is not answered 429. -/
theorem claim_C3_witness :
    (List.replicate 100 (0:ℚ)).length = 100
    ∧ (∀ ts ∈ List.replicate 100 (0:ℚ), (59:ℚ) - ts < 60)
    ∧ (rateLimitCheck (List.replicate 100 (0:ℚ)) 59).1 = false
    ∧ (∀ ts ∈ List.replicate 100 (0:ℚ), (61:ℚ) ≤ 61 - ts)
    ∧ (rateLimitCheck (List.replicate 100 (0:ℚ)) 61).1 = true
    ∧ (detectVoice sampleEnv sampleReq none (some ("k")) ("k")
        (List.replicate 100 (0:ℚ)) 59).response = .error 429 ("Too many requests")
    ∧ (detectVoice sampleEnv sampleReq none (some ("k")) ("k")
        (List.replicate 100 (0:ℚ)) 61).response ≠ .error 429 ("Too many requests") := by
  have h1 : ∀ ts ∈ List.replicate 100 (0:ℚ), (59:ℚ) - ts < 60 := by
    intro ts hts
    rw [List.eq_of_mem_replicate hts]
    norm_num
  have h2 : ∀ ts ∈ List.replicate 100 (0:ℚ), (61:ℚ) ≤ 61 - ts := by
    intro ts hts
    rw [List.eq_of_mem_replicate hts]
    norm_num
  exact ⟨by simp, h1, claim_C3.2.1 _ 59 (by simp) h1, h2, claim_C3.2.2.1 _ 61 h2,
    claim_C3.2.2.2.2.1 sampleEnv sampleReq none (some ("k")) ("k") _ 59 (by simp) h1,
    claim_C3.2.2.2.2.2 sampleEnv sampleReq none (some ("k")) ("k") _ 61
      ("Too many requests") h2⟩

/-- C2: the HTTP response of the handler does not depend on whether the
db.add/db.commit step raises; in particular a request that reached a 200
response under working persistence gets the identical 200 response, label
and confidence when persistence fails. -/
theorem claim_C2 :
    (∀ (env : Env) (data : AudioRequest) (auth xkey : Option String)
      (apiKey : String) (window : List ℚ) (now : ℚ),
      (detectVoice { env with dbSaveOk := false } data auth xkey apiKey window now).response
        = (detectVoice { env with dbSaveOk := true } data auth xkey apiKey window now).response)
    ∧ (∀ (env : Env) (data : AudioRequest) (auth xkey : Option String)
        (apiKey : String) (window : List ℚ) (now : ℚ) (res : String) (c : ℚ),
        (detectVoice { env with dbSaveOk := true } data auth xkey apiKey window now).response
          = .ok res c →
        (detectVoice { env with dbSaveOk := false } data auth xkey apiKey window now).response
          = .ok res c) := by
  have main : ∀ (env : Env) (data : AudioRequest) (auth xkey : Option String)
      (apiKey : String) (window : List ℚ) (now : ℚ),
      (detectVoice { env with dbSaveOk := false } data auth xkey apiKey window now).response
        = (detectVoice { env with dbSaveOk := true } data auth xkey apiKey window now).response := by
    intro env data auth xkey apiKey window now
    by_cases h1 : (rateLimitCheck window now).1 = false
    · simp [detectVoice, h1]
    · by_cases h2 : checkApiKey auth xkey apiKey = false
      · simp [detectVoice, h1, h2]
      · by_cases h3 : pyLower data.language ∉ SUPPORTED
        · simp [detectVoice, h1, h2, h3]
        · cases hb : env.b64decode data.audio_base64 with
          | none => simp [detectVoice, h1, h2, h3, hb]
          | some nbytes =>
            by_cases h4 : nbytes > MAX_AUDIO_FILE_SIZE
            · simp [detectVoice, h1, h2, h3, hb, h4]
            · by_cases h5 : nbytes < 100
              · simp [detectVoice, h1, h2, h3, hb, h4, h5]
              · cases hx : (featureExtractionStage env.decode).1 with
                | error e => simp [detectVoice, h1, h2, h3, hb, h4, h5, hx]
                | ok feats => simp [detectVoice, h1, h2, h3, hb, h4, h5, hx]
  exact ⟨main, fun env data auth xkey apiKey window now res c h => by
    rw [main env data auth xkey apiKey window now]; exact h⟩

/-- C2 witness: the sample request is answered 200 with AI_GENERATED at
0.972 both when persistence works and when the save raises. -/
theorem claim_C2_witness :
    (detectVoice { sampleEnv with dbSaveOk := true } sampleReq none (some ("k")) ("k")
        [] 0).response = .ok ("AI_GENERATED") (972/1000)
    ∧ (detectVoice { sampleEnv with dbSaveOk := false } sampleReq none (some ("k")) ("k")
        [] 0).response = .ok ("AI_GENERATED") (972/1000) := by
  have hok : (detectVoice { sampleEnv with dbSaveOk := true } sampleReq none (some ("k"))
      ("k") [] 0).response = .ok ("AI_GENERATED") (972/1000) := by
    rw [detectVoice_success { sampleEnv with dbSaveOk := true } sampleReq none (some ("k"))
      ("k") [] 0 1000 1 sampleFeats (by rw [rateLimitCheck_nil]) (by decide) (by decide)
      rfl (by decide) (by decide) rfl
      (by rw [show MAX_AUDIO_DURATION = 30 from rfl]; norm_num) (by norm_num)]
    simp [sampleEnv, classifyHeuristic_sampleFeats, round3_972]
  exact ⟨hok, claim_C2.2 sampleEnv sampleReq none (some ("k")) ("k") [] 0
    ("AI_GENERATED") (972/1000) hok⟩

/-- C4 counterexample: with secret "secret-key-123", a well-formed bearer
header carrying the wrong value makes verification fail even though the
dedicated API-key header carries the configured secret, so presenting the
secret in the API-key header does not suffice. -/
theorem claim_C4_counterexample :
    checkApiKey (some ("Bearer wrong-key")) (some ("secret-key-123")) ("secret-key-123")
      = false := by decide

/-- C4 (amended): verification succeeds iff the authorization header is a
well-formed bearer token carrying the secret, or no well-formed bearer
header is present and the API-key header is nonempty and equals the secret;
a well-formed bearer with the wrong value fails even when the API-key header
is correct; it fails closed when neither header is present, and any failed
verification receives 401 regardless of the payload. -/
theorem claim_C4_amended :
    (∀ (auth xkey : Option String) (key : String),
      checkApiKey auth xkey key = true ↔
        (bearerToken auth = some key
          ∨ (bearerToken auth = none
             ∧ ∃ xk, xkey = some xk ∧ xk ≠ "" ∧ xk = key)))
    ∧ (∀ key, checkApiKey none none key = false)
    ∧ (∀ (env : Env) (data : AudioRequest) (now : ℚ) (auth xkey : Option String)
        (key : String),
        checkApiKey auth xkey key = false →
        (detectVoice env data auth xkey key [] now).response
          = .error 401 ("Unauthorized")) := by
  refine ⟨?_, ?_, ?_⟩
  · intro auth xkey key
    unfold checkApiKey
    cases hbt : bearerToken auth with
    | some tok => simp [hbt]
    | none =>
      rcases xkey with _ | xk
      · simp [hbt]
      · by_cases hxk : xk = ""
        · simp [hbt, hxk]
        · simp [hbt, hxk]
  · intro key
    rfl
  · intro env data now auth xkey key h
    simp [detectVoice, rateLimitCheck_nil, h]

/-- C4 witness: with a wrong bearer value and no API-key header the request
is rejected with 401. -/
theorem claim_C4_witness :
    checkApiKey (some ("Bearer wrong")) none ("right") = false
    ∧ (detectVoice sampleEnv sampleReq (some ("Bearer wrong")) none ("right") [] 0).response
        = .error 401 ("Unauthorized") :=
  ⟨by decide,
    claim_C4_amended.2.2 sampleEnv sampleReq 0 (some ("Bearer wrong")) none ("right")
      (by decide)⟩

/-- C5: expiry of the 10-second deadline cancels extraction and surfaces as
the timeout error, a decoded duration outside [0.5, 30] surfaces as a value
error distinct from the timeout, every extraction failure is mapped to HTTP
400 (never 500), and a timed-out request gets 400 "Audio processing
timeout". -/
theorem claim_C5 :
    (loadAndExtract .timedOut = .error .timeoutError)
    ∧ (∀ (dur : ℚ) (feats : Feats), dur < 0.5 ∨ MAX_AUDIO_DURATION < dur →
        ∃ m, loadAndExtract (.decoded dur feats) = .error (.valueError m)
          ∧ PyError.valueError m ≠ PyError.timeoutError)
    ∧ (extractionErrorResponse .timeoutError = (400, ("Audio processing timeout")))
    ∧ (∀ e, (extractionErrorResponse e).1 = 400)
    ∧ (∀ e, (extractionErrorResponse e).1 ≠ 500)
    ∧ (∀ (env : Env) (data : AudioRequest) (auth xkey : Option String)
        (apiKey : String) (now : ℚ) (n : ℕ),
        checkApiKey auth xkey apiKey = true →
        pyLower data.language ∈ SUPPORTED →
        env.b64decode data.audio_base64 = some n →
        ¬ n > MAX_AUDIO_FILE_SIZE → ¬ n < 100 →
        env.decode = .timedOut →
        (detectVoice env data auth xkey apiKey [] now).response
          = .error 400 ("Audio processing timeout")) := by
  refine ⟨rfl, ?_, rfl, fun e => by cases e <;> rfl, fun e => by cases e <;> simp [extractionErrorResponse], ?_⟩
  · intro dur feats h
    rcases h with h | h
    · refine ⟨("Audio duration is too short (< 0.5 seconds)"), ?_, by simp⟩
      have h30 : ¬ dur > MAX_AUDIO_DURATION :=
        not_lt.mpr (by rw [show MAX_AUDIO_DURATION = 30 from rfl]; linarith)
      simp only [loadAndExtract]
      rw [if_neg h30, if_pos h]
    · refine ⟨("Audio duration exceeds 30.0 seconds"), ?_, by simp⟩
      simp only [loadAndExtract]
      rw [if_pos h]
  · intro env data auth xkey apiKey now n hauth hlang hb64 hmax hmin hdec
    rw [detectVoice_extractError env data auth xkey apiKey [] now n .timeoutError
      (by rw [rateLimitCheck_nil]) hauth hlang hb64 hmax hmin (by rw [hdec]; rfl)]
    rfl

theorem label_threshold (c : ℚ) :
    ((if c ≥ 0.5 then ("AI_GENERATED") else ("HUMAN")) = ("AI_GENERATED")) ↔ c ≥ 1/2 := by
  rw [show (0.5 : ℚ) = 1/2 from by norm_num]
  split_ifs with h
  · exact ⟨fun _ => h, fun _ => rfl⟩
  · exact ⟨fun hh => absurd hh (by decide), fun hc => absurd hc h⟩

/-- Any record the handler commits comes from the success path: persistence
was up, extraction succeeded on some features, and the row holds the
request id, the lowercased language, the selected strategy result, the
rounded confidence, and the startup-determined model version. -/
theorem detectVoice_saved_some (env : Env) (data : AudioRequest)
    (auth xkey : Option String) (apiKey : String) (window : List ℚ) (now : ℚ)
    (r : DetectionRecord)
    (h : (detectVoice env data auth xkey apiKey window now).saved = some r) :
    env.dbSaveOk = true
    ∧ ∃ feats, loadAndExtract env.decode = .ok feats
      ∧ r = ⟨env.requestId, pyLower data.language,
          (if env.modelAvailable then classifyMl env.mlScore feats
            else classifyHeuristic feats).1,
          round3 ((if env.modelAvailable then classifyMl env.mlScore feats
            else classifyHeuristic feats).2),
          if env.modelAvailable then env.metadataVersion else ("heuristic")⟩ := by
  by_cases h1 : (rateLimitCheck window now).1 = false
  · simp [detectVoice, h1] at h
  · by_cases h2 : checkApiKey auth xkey apiKey = false
    · simp [detectVoice, h1, h2] at h
    · by_cases h3 : pyLower data.language ∉ SUPPORTED
      · simp [detectVoice, h1, h2, h3] at h
      · cases hb : env.b64decode data.audio_base64 with
        | none => simp [detectVoice, h1, h2, h3, hb] at h
        | some nbytes =>
          by_cases h4 : nbytes > MAX_AUDIO_FILE_SIZE
          · simp [detectVoice, h1, h2, h3, hb, h4] at h
          · by_cases h5 : nbytes < 100
            · simp [detectVoice, h1, h2, h3, hb, h4, h5] at h
            · cases hx : (featureExtractionStage env.decode).1 with
              | error e => simp [detectVoice, h1, h2, h3, hb, h4, h5, hx] at h
              | ok feats =>
                by_cases h6 : env.dbSaveOk = true
                · simp only [detectVoice, h1, h2, h3, hb, h4, h5, hx, h6] at h
                  refine ⟨h6, feats,
                    by rw [show loadAndExtract env.decode
                        = (featureExtractionStage env.decode).1 from rfl, hx], ?_⟩
                  cases hma : env.modelAvailable
                  · simp only [hma] at h ⊢
                    simp only [Bool.false_eq_true, if_false, ite_false, if_true,
                      ite_true] at h ⊢
                    simp at h
                    exact h.symm
                  · simp only [hma] at h ⊢
                    simp at h
                    exact h.symm
                · simp [detectVoice, h1, h2, h3, hb, h4, h5, hx, h6] at h

/-- C5 witness: a request whose extraction hits the deadline is answered 400
with the timeout detail. -/
theorem claim_C5_witness :
    checkApiKey none (some ("k")) ("k") = true
    ∧ (detectVoice { sampleEnv with decode := .timedOut } sampleReq none (some ("k")) ("k")
        [] 0).response = .error 400 ("Audio processing timeout") :=
  ⟨by decide,
    claim_C5.2.2.2.2.2 { sampleEnv with decode := .timedOut } sampleReq none (some ("k"))
      ("k") 0 1000 (by decide) (by decide) rfl
      (by rw [show MAX_AUDIO_FILE_SIZE = 2097152 from rfl]; norm_num) (by norm_num) rfl⟩

/-- Feature values driving the heuristic to confidence 0.4996: perfectly
stable pitch, zcr_mean 0.4008, spectral centroid variance at the cap, and
flatness at the cap. -/
def c6Feats : Feats := ⟨some 1, some 0, some (501/1250), some 5000, some 1⟩

set_option maxHeartbeats 1000000 in
theorem classifyHeuristic_c6Feats :
    classifyHeuristic c6Feats = (("HUMAN"), 1249/2500) := by
  norm_num [c6Feats, classifyHeuristic, min_def, max_def]

theorem round3_c6 : round3 (1249/2500) = 1/2 := by
  norm_num [round3, roundHalfEven]

theorem pyLower_en : pyLower ("en") = ("en") := by decide

/-- C6 counterexample: a request whose heuristic confidence is 0.4996 is
labelled HUMAN (the threshold of the pre-rounding confidence), but the
persisted record stores the rounded confidence 0.5, which is at the 0.5
threshold, so the stored label is not the threshold of the stored
confidence. -/
theorem claim_C6_counterexample :
    (detectVoice { sampleEnv with decode := .decoded 1 c6Feats } sampleReq none (some ("k"))
        ("k") [] 0).saved
      = some ⟨("req-0"), ("en"), ("HUMAN"), 1/2, ("heuristic")⟩
    ∧ ((1:ℚ)/2 ≥ 1/2 ∧ ("HUMAN") ≠ ("AI_GENERATED")) := by
  constructor
  · rw [detectVoice_success { sampleEnv with decode := .decoded 1 c6Feats } sampleReq none
      (some ("k")) ("k") [] 0 1000 1 c6Feats (by rw [rateLimitCheck_nil]) (by decide)
      (by decide) rfl (by rw [show MAX_AUDIO_FILE_SIZE = 2097152 from rfl]; norm_num)
      (by norm_num) rfl (by rw [show MAX_AUDIO_DURATION = 30 from rfl]; norm_num)
      (by norm_num)]
    simp [sampleEnv, sampleReq, classifyHeuristic_c6Feats, round3_c6, pyLower_en]
  · exact ⟨le_refl _, by decide⟩

/-- C6 (amended): both strategies return confidence in [0,1] (for the
trained-model strategy, granted the external scorer returns a probability)
with label at the 0.5 threshold of that confidence; every persisted record
stores a confidence in [0,1] that is the three-decimal rounding of the
strategy confidence, and its label is the threshold of the pre-rounding
confidence, which can differ from the threshold of the stored rounded
confidence. -/
theorem claim_C6_amended :
    (∀ feats, 0 ≤ (classifyHeuristic feats).2 ∧ (classifyHeuristic feats).2 ≤ 1
      ∧ ((classifyHeuristic feats).1 = ("AI_GENERATED")
          ↔ (classifyHeuristic feats).2 ≥ 1/2))
    ∧ (∀ (score : List ℚ → Except Unit ℚ) (feats : Feats),
        (∀ p, score (featureList feats) = .ok p → 0 ≤ p ∧ p ≤ 1) →
        0 ≤ (classifyMl score feats).2 ∧ (classifyMl score feats).2 ≤ 1
        ∧ ((classifyMl score feats).1 = ("AI_GENERATED")
            ↔ (classifyMl score feats).2 ≥ 1/2))
    ∧ (∀ (env : Env) (data : AudioRequest) (auth xkey : Option String)
        (apiKey : String) (window : List ℚ) (now : ℚ) (r : DetectionRecord),
        (∀ l p, env.mlScore l = .ok p → 0 ≤ p ∧ p ≤ 1) →
        (detectVoice env data auth xkey apiKey window now).saved = some r →
        0 ≤ r.confidence ∧ r.confidence ≤ 1
        ∧ ∃ c, r.confidence = round3 c ∧ 0 ≤ c ∧ c ≤ 1
            ∧ (r.result = ("AI_GENERATED") ↔ c ≥ 1/2)) := by
  have hHeu : ∀ feats, 0 ≤ (classifyHeuristic feats).2 ∧ (classifyHeuristic feats).2 ≤ 1
      ∧ ((classifyHeuristic feats).1 = ("AI_GENERATED")
          ↔ (classifyHeuristic feats).2 ≥ 1/2) := by
    intro feats
    simp only [classifyHeuristic, show (0.0 : ℚ) = 0 from by norm_num,
      show (1.0 : ℚ) = 1 from by norm_num]
    exact ⟨le_max_left _ _, max_le (by norm_num) (min_le_left _ _), label_threshold _⟩
  have hMl : ∀ (score : List ℚ → Except Unit ℚ) (feats : Feats),
      (∀ p, score (featureList feats) = .ok p → 0 ≤ p ∧ p ≤ 1) →
      0 ≤ (classifyMl score feats).2 ∧ (classifyMl score feats).2 ≤ 1
      ∧ ((classifyMl score feats).1 = ("AI_GENERATED")
          ↔ (classifyMl score feats).2 ≥ 1/2) := by
    intro score feats hp
    cases hsc : score (featureList feats) with
    | error e =>
      have := hHeu feats
      simpa [classifyMl, hsc] using this
    | ok p =>
      have hb := hp p hsc
      simp only [classifyMl, hsc]
      exact ⟨hb.1, hb.2, label_threshold p⟩
  refine ⟨hHeu, hMl, ?_⟩
  intro env data auth xkey apiKey window now r hml h
  obtain ⟨hdb, feats, hok, hr⟩ :=
    detectVoice_saved_some env data auth xkey apiKey window now r h
  subst hr
  cases hma : env.modelAvailable
  · simp only [hma, Bool.false_eq_true, if_false, ite_false]
    exact ⟨round3_nonneg _ (hHeu feats).1, round3_le_one _ (hHeu feats).2.1,
      (classifyHeuristic feats).2, rfl, (hHeu feats).1, (hHeu feats).2.1,
      (hHeu feats).2.2⟩
  · have hm := hMl env.mlScore feats (fun p hs => hml (featureList feats) p hs)
    simp only [hma, if_true, ite_true]
    exact ⟨round3_nonneg _ hm.1, round3_le_one _ hm.2.1,
      (classifyMl env.mlScore feats).2, rfl, hm.1, hm.2.1, hm.2.2⟩

/-- C6 witness: the sample run persists the record with rounded confidence
0.972 in [0,1], whose label AI_GENERATED is the threshold of the
pre-rounding confidence. -/
theorem claim_C6_witness :
    (∀ l p, sampleEnv.mlScore l = .ok p → 0 ≤ p ∧ p ≤ 1)
    ∧ ((detectVoice sampleEnv sampleReq none (some ("k")) ("k") [] 0).saved
        = some ⟨("req-0"), ("en"), ("AI_GENERATED"), 972/1000, ("heuristic")⟩)
    ∧ (0 ≤ (972:ℚ)/1000 ∧ (972:ℚ)/1000 ≤ 1
        ∧ ∃ c, (972:ℚ)/1000 = round3 c ∧ 0 ≤ c ∧ c ≤ 1
            ∧ ((("AI_GENERATED") : String) = ("AI_GENERATED") ↔ c ≥ 1/2)) := by
  have hml : ∀ l p, sampleEnv.mlScore l = .ok p → 0 ≤ p ∧ p ≤ 1 := by
    intro l p hp
    exact absurd hp (by simp [sampleEnv])
  have hsaved : (detectVoice sampleEnv sampleReq none (some ("k")) ("k") [] 0).saved
      = some ⟨("req-0"), ("en"), ("AI_GENERATED"), 972/1000, ("heuristic")⟩ := by
    rw [detectVoice_success sampleEnv sampleReq none (some ("k")) ("k") [] 0 1000 1
      sampleFeats (by rw [rateLimitCheck_nil]) (by decide) (by decide) rfl
      (by rw [show MAX_AUDIO_FILE_SIZE = 2097152 from rfl]; norm_num) (by norm_num) rfl
      (by rw [show MAX_AUDIO_DURATION = 30 from rfl]; norm_num) (by norm_num)]
    simp [sampleEnv, sampleReq, classifyHeuristic_sampleFeats, round3_972, pyLower_en]
  exact ⟨hml, hsaved,
    claim_C6_amended.2.2 sampleEnv sampleReq none (some ("k")) ("k") [] 0 _ hml hsaved⟩

/-- C7: when the trained-model strategy raises, classify returns the
heuristic result for the same feature vector; the fallback is per-request
and does not disable the trained-model strategy for other feature vectors;
at the pipeline level such a request is still answered 200 with the
heuristic label and rounded confidence. -/
theorem claim_C7 :
    (∀ (score : List ℚ → Except Unit ℚ) (feats : Feats),
      score (featureList feats) = .error () →
      classifyMl score feats = classifyHeuristic feats)
    ∧ (∀ (score : List ℚ → Except Unit ℚ) (feats₁ feats₂ : Feats) (p : ℚ),
        score (featureList feats₁) = .error () →
        score (featureList feats₂) = .ok p →
        classifyMl score feats₁ = classifyHeuristic feats₁
        ∧ classifyMl score feats₂
            = (if p ≥ 0.5 then ("AI_GENERATED") else ("HUMAN"), p))
    ∧ (∀ (env : Env) (data : AudioRequest) (auth xkey : Option String)
        (apiKey : String) (now : ℚ) (n : ℕ) (dur : ℚ) (feats : Feats),
        env.modelAvailable = true →
        env.mlScore (featureList feats) = .error () →
        checkApiKey auth xkey apiKey = true →
        pyLower data.language ∈ SUPPORTED →
        env.b64decode data.audio_base64 = some n →
        ¬ n > MAX_AUDIO_FILE_SIZE → ¬ n < 100 →
        env.decode = .decoded dur feats →
        ¬ dur > MAX_AUDIO_DURATION → ¬ dur < 0.5 →
        (detectVoice env data auth xkey apiKey [] now).response
          = .ok (classifyHeuristic feats).1 (round3 (classifyHeuristic feats).2)) := by
  refine ⟨?_, ?_, ?_⟩
  · intro score feats h
    simp [classifyMl, h]
  · intro score feats₁ feats₂ p h1 h2
    exact ⟨by simp [classifyMl, h1], by simp [classifyMl, h2]⟩
  · intro env data auth xkey apiKey now n dur feats hma hmls hauth hlang hb64 hmax hmin
      hdec hd1 hd2
    rw [detectVoice_success env data auth xkey apiKey [] now n dur feats
      (by rw [rateLimitCheck_nil]) hauth hlang hb64 hmax hmin hdec hd1 hd2]
    simp [hma, classifyMl, hmls]

/-- C7 witness: with the model loaded but its scorer raising, the request is
answered with the heuristic label and confidence for its features. -/
theorem claim_C7_witness :
    ({ sampleEnv with modelAvailable := true } : Env).mlScore (featureList sampleFeats)
        = .error ()
    ∧ (detectVoice { sampleEnv with modelAvailable := true } sampleReq none (some ("k"))
        ("k") [] 0).response = .ok ("AI_GENERATED") (972/1000) := by
  refine ⟨rfl, ?_⟩
  rw [claim_C7.2.2 { sampleEnv with modelAvailable := true } sampleReq none (some ("k"))
    ("k") 0 1000 1 sampleFeats rfl rfl (by decide) (by decide) rfl (by decide) (by decide)
    rfl (by rw [show MAX_AUDIO_DURATION = 30 from rfl]; norm_num) (by norm_num)]
  simp [classifyHeuristic_sampleFeats, round3_972]

/-- C8: the staged temp file is removed on every exit of the extraction
block (success, decode failure, duration violation, deadline expiry), and at
the pipeline level every request that reaches the staging step ends with the
file removed, whatever the decode outcome. -/
theorem claim_C8 :
    (∀ d : DecodeOutcome, (featureExtractionStage d).2 = true)
    ∧ (∀ (env : Env) (data : AudioRequest) (auth xkey : Option String)
        (apiKey : String) (window : List ℚ) (now : ℚ) (n : ℕ),
        (rateLimitCheck window now).1 = true →
        checkApiKey auth xkey apiKey = true →
        pyLower data.language ∈ SUPPORTED →
        env.b64decode data.audio_base64 = some n →
        ¬ n > MAX_AUDIO_FILE_SIZE → ¬ n < 100 →
        (detectVoice env data auth xkey apiKey window now).tempRemoved = some true) := by
  refine ⟨fun d => rfl, ?_⟩
  intro env data auth xkey apiKey window now n hrl hauth hlang hb64 hmax hmin
  simp only [detectVoice, hrl, hauth, hlang, hb64, hmax, hmin, Bool.true_eq_false,
    if_false, ite_false, not_true_eq_false, not_false_eq_true, ite_true, if_true]
  split <;> rfl

/-- C8 witness: a request whose audio fails to decode still ends with the
staged temp file removed. -/
theorem claim_C8_witness :
    (rateLimitCheck [] 0).1 = true
    ∧ (detectVoice { sampleEnv with decode := .decodeFail } sampleReq none (some ("k"))
        ("k") [] 0).tempRemoved = some true :=
  ⟨by rw [rateLimitCheck_nil],
    claim_C8.2 { sampleEnv with decode := .decodeFail } sampleReq none (some ("k")) ("k")
      [] 0 1000 (by rw [rateLimitCheck_nil]) (by decide) (by decide) rfl (by decide)
      (by decide)⟩

/-- C9: whenever the model was available at startup, every persisted record
carries the loaded model metadata version, with no condition on whether the
scorer succeeded or the per-request heuristic fallback was taken. -/
theorem claim_C9 :
    ∀ (env : Env) (data : AudioRequest) (auth xkey : Option String)
      (apiKey : String) (window : List ℚ) (now : ℚ) (r : DetectionRecord),
      env.modelAvailable = true →
      (detectVoice env data auth xkey apiKey window now).saved = some r →
      r.model_version = env.metadataVersion := by
  intro env data auth xkey apiKey window now r hma h
  obtain ⟨hdb, feats, hok, hr⟩ :=
    detectVoice_saved_some env data auth xkey apiKey window now r h
  subst hr
  simp [hma]

/-- An environment whose model loaded with metadata version 2.0 but whose
scorer raises at classification time. -/
def env9 : Env :=
  { sampleEnv with modelAvailable := true, metadataVersion := ("2.0") }

/-- C9 witness: the model is available but its scorer raises, the heuristic
produces the label, and the persisted record still carries the model
metadata version 2.0. -/
theorem claim_C9_witness :
    env9.modelAvailable = true
    ∧ (detectVoice env9 sampleReq none (some ("k")) ("k") [] 0).saved
      = some ⟨("req-0"), ("en"), ("AI_GENERATED"), 972/1000, ("2.0")⟩
    ∧ (⟨("req-0"), ("en"), ("AI_GENERATED"), 972/1000, ("2.0")⟩
        : DetectionRecord).model_version = env9.metadataVersion := by
  have hsaved : (detectVoice env9 sampleReq none (some ("k")) ("k") [] 0).saved
      = some ⟨("req-0"), ("en"), ("AI_GENERATED"), 972/1000, ("2.0")⟩ := by
    rw [detectVoice_success env9 sampleReq none (some ("k")) ("k") [] 0 1000 1
      sampleFeats (by rw [rateLimitCheck_nil]) (by decide) (by decide) rfl (by decide)
      (by decide) rfl (by rw [show MAX_AUDIO_DURATION = 30 from rfl]; norm_num)
      (by norm_num)]
    simp [env9, sampleEnv, sampleReq, classifyMl, classifyHeuristic_sampleFeats,
      round3_972, pyLower_en]
  exact ⟨rfl, hsaved,
    claim_C9 env9 sampleReq none (some ("k")) ("k") [] 0 _ rfl hsaved⟩

/-- C10: every invocation adds exactly one to total_requests and exactly one
to the sum of successful_detections, failed_requests and auth_failures, so
the identity total = successful + failed + auth is preserved across calls;
an authentication failure is counted in auth_failures and not in
failed_requests. -/
theorem claim_C10 :
    (∀ (env : Env) (data : AudioRequest) (auth xkey : Option String)
      (apiKey : String) (window : List ℚ) (now : ℚ),
      (detectVoice env data auth xkey apiKey window now).metrics.total_requests = 1
      ∧ (detectVoice env data auth xkey apiKey window now).metrics.successful_detections
        + (detectVoice env data auth xkey apiKey window now).metrics.failed_requests
        + (detectVoice env data auth xkey apiKey window now).metrics.auth_failures = 1)
    ∧ (∀ (env : Env) (data : AudioRequest) (auth xkey : Option String)
        (apiKey : String) (window : List ℚ) (now : ℚ),
        (rateLimitCheck window now).1 = true →
        checkApiKey auth xkey apiKey = false →
        (detectVoice env data auth xkey apiKey window now).metrics = ⟨1, 0, 0, 1⟩)
    ∧ (∀ (M : Metrics) (env : Env) (data : AudioRequest) (auth xkey : Option String)
        (apiKey : String) (window : List ℚ) (now : ℚ),
        M.total_requests
          = M.successful_detections + M.failed_requests + M.auth_failures →
        (M.add (detectVoice env data auth xkey apiKey window now).metrics).total_requests
          = (M.add (detectVoice env data auth xkey apiKey window now).metrics).successful_detections
            + (M.add (detectVoice env data auth xkey apiKey window now).metrics).failed_requests
            + (M.add (detectVoice env data auth xkey apiKey window now).metrics).auth_failures) := by
  have main : ∀ (env : Env) (data : AudioRequest) (auth xkey : Option String)
      (apiKey : String) (window : List ℚ) (now : ℚ),
      (detectVoice env data auth xkey apiKey window now).metrics.total_requests = 1
      ∧ (detectVoice env data auth xkey apiKey window now).metrics.successful_detections
        + (detectVoice env data auth xkey apiKey window now).metrics.failed_requests
        + (detectVoice env data auth xkey apiKey window now).metrics.auth_failures = 1 := by
    intro env data auth xkey apiKey window now
    by_cases h1 : (rateLimitCheck window now).1 = false
    · simp [detectVoice, h1]
    · by_cases h2 : checkApiKey auth xkey apiKey = false
      · simp [detectVoice, h1, h2]
      · by_cases h3 : pyLower data.language ∉ SUPPORTED
        · simp [detectVoice, h1, h2, h3]
        · cases hb : env.b64decode data.audio_base64 with
          | none => simp [detectVoice, h1, h2, h3, hb]
          | some nbytes =>
            by_cases h4 : nbytes > MAX_AUDIO_FILE_SIZE
            · simp [detectVoice, h1, h2, h3, hb, h4]
            · by_cases h5 : nbytes < 100
              · simp [detectVoice, h1, h2, h3, hb, h4, h5]
              · cases hx : (featureExtractionStage env.decode).1 with
                | error e => simp [detectVoice, h1, h2, h3, hb, h4, h5, hx]
                | ok feats => simp [detectVoice, h1, h2, h3, hb, h4, h5, hx]
  refine ⟨main, ?_, ?_⟩
  · intro env data auth xkey apiKey window now hrl hauth
    simp [detectVoice, hrl, hauth]
  · intro M env data auth xkey apiKey window now hM
    obtain ⟨ht, hs⟩ := main env data auth xkey apiKey window now
    simp only [Metrics.add]
    omega

/-- C10 witness: an authentication failure is counted once in auth_failures
only, and the counter identity is preserved starting from totals 5 = 2+2+1. -/
theorem claim_C10_witness :
    (rateLimitCheck [] 0).1 = true
    ∧ checkApiKey none none ("k") = false
    ∧ (detectVoice sampleEnv sampleReq none none ("k") [] 0).metrics = ⟨1, 0, 0, 1⟩
    ∧ (⟨5, 2, 2, 1⟩ : Metrics).total_requests
        = (⟨5, 2, 2, 1⟩ : Metrics).successful_detections
          + (⟨5, 2, 2, 1⟩ : Metrics).failed_requests
          + (⟨5, 2, 2, 1⟩ : Metrics).auth_failures
    ∧ ((⟨5, 2, 2, 1⟩ : Metrics).add
          (detectVoice sampleEnv sampleReq none none ("k") [] 0).metrics).total_requests
        = ((⟨5, 2, 2, 1⟩ : Metrics).add
            (detectVoice sampleEnv sampleReq none none ("k") [] 0).metrics).successful_detections
          + ((⟨5, 2, 2, 1⟩ : Metrics).add
              (detectVoice sampleEnv sampleReq none none ("k") [] 0).metrics).failed_requests
          + ((⟨5, 2, 2, 1⟩ : Metrics).add
              (detectVoice sampleEnv sampleReq none none ("k") [] 0).metrics).auth_failures :=
  ⟨by rw [rateLimitCheck_nil], by decide,
    claim_C10.2.1 sampleEnv sampleReq none none ("k") [] 0 (by rw [rateLimitCheck_nil])
      (by decide),
    by norm_num,
    claim_C10.2.2 ⟨5, 2, 2, 1⟩ sampleEnv sampleReq none none ("k") [] 0 (by norm_num)⟩

end VoiceDetector
